import Mathlib

/-!
Verification development for the jnipp JNI wrapper (src/jnipp.h, src/jnipp.cpp).

The C++ sources are shallowly embedded: the pure signature synthesizer and the
UTF-16/wide-string codecs become Lean functions on strings and lists of code
units; the stateful JNI bridge (reference tables, the pending-exception flag,
the process-wide VM flag, the per-thread environment) becomes explicit state
passing over small structures, with fallible operations returning `Except`
paired with the post-state.  Machine integers are modelled as `Nat`/`Int`,
with conversion to the 16-bit `jchar` written as an explicit `% 65536`.
-/

namespace Jnipp

/-! ## Signature synthesizer (jnipp.h, internal::valueSig / internal::sig) -/

/-- Tags for the native value types accepted by the `internal::valueSig`
overload set of jnipp.h (lines 68-79): void, bool, wchar_t, short, int,
long long, float, double, std::string, std::wstring, const char*,
const wchar_t*. -/
inductive SigType where
  | voidT | boolT | wcharT | shortT | intT | longT | floatT | doubleT
  | stringT | wstringT | cstrT | wcstrT
deriving DecidableEq

/-- Models the `internal::valueSig` overloads of jnipp.h lines 68-79: each
supported type maps to its JNI descriptor literal. -/
def valueSig : SigType → String
  | .voidT => "V"
  | .boolT => "Z"
  | .wcharT => "C"
  | .shortT => "S"
  | .intT => "I"
  | .longT => "J"
  | .floatT => "F"
  | .doubleT => "D"
  | .stringT => "Ljava/lang/String;"
  | .wstringT => "Ljava/lang/String;"
  | .cstrT => "Ljava/lang/String;"
  | .wcstrT => "Ljava/lang/String;"

/-- Models the variadic `internal::sig` of jnipp.h lines 86-91:
`sig() = ""` and `sig(arg, rest...) = valueSig(&arg) + sig(rest...)`. -/
def sigList : List SigType → String
  | [] => ""
  | t :: ts => valueSig t ++ sigList ts

/-- Models the method-descriptor composition used by `Object::call` in
jnipp.h line 293: `"(" + internal::sig(args...) + ")" + valueSig(ret)`. -/
def methodSig (args : List SigType) (ret : SigType) : String :=
  "(" ++ sigList args ++ ")" ++ valueSig ret

/-! ## UTF-16 / wide-string codecs (jnipp.cpp, toWString / toJString) -/

/-- Models the C++ conversion `jchar(ch)` from `wchar_t` to the unsigned
16-bit `jchar`: reduction modulo 2^16. -/
def jcharOf (x : Int) : Nat := (x % 65536).toNat

/-- Models `toWString(const jchar* str, jsize length)` of jnipp.cpp lines
81-105, with the index loop over `str` rendered as structural recursion on
the list of 16-bit code units and `wchar_t` modelled as `Int`.

The source reads `ch = str[i]`; when `0xD800 <= ch <= 0xDBFF` it breaks if
no further unit exists (`i + 1 >= length`), and otherwise computes
`ch = ((ch - 0xD800) << 10) + (str[i++] - 0x1DC00)`.  Note the subexpression
`str[i++]` reads index `i` — the high-surrogate unit itself, not the
following low unit — and the following unit is then skipped by the loop
increment; the embedding reproduces this verbatim. -/
def toWString : List Nat → List Int
  | [] => []
  | ch :: rest =>
    if 0xD800 ≤ ch ∧ ch ≤ 0xDBFF then
      match rest with
      | [] => []
      | _ :: rest2 =>
        (((ch : Int) - 0xD800) * 1024 + ((ch : Int) - 0x1DC00)) :: toWString rest2
    else (ch : Int) :: toWString rest

/-- Models `toJString(const wchar_t* str, size_t length)` of jnipp.cpp lines
107-130: each `wchar_t` above 0xFFFF is split into a surrogate pair
(`ch -= 0x10000`, high unit `0xD800 + (ch >> 10)`, low unit
`0xDC00 + (ch & 0x3FF)`); everything is appended through the narrowing
conversion `jchar(ch)`. -/
def toJString : List Int → List Nat
  | [] => []
  | ch :: rest =>
    if ch > 0xFFFF then
      let c1 := ch - 0x10000
      jcharOf (0xD800 + c1 / 1024) :: jcharOf (0xDC00 + c1 % 1024) :: toJString rest
    else jcharOf ch :: toJString rest

/-! ## The JNI bridge state

References (local and global alike) are slots in a table mapping slot index
to the identity of the managed object it denotes; `none` marks a slot that
was never allocated or has been deleted.  `next` is the next fresh slot;
`pending` is the bridge's pending-exception flag holding the identity of the
thrown object; `strRep` gives each object's `toString()` value and
`className` the dotted name of each object's runtime class as reported by
`Class::getName()`. -/

/-- A raw `jobject` handle: either the null pointer or a reference slot. -/
abbrev JObj := Option Nat

structure Env where
  table : Nat → Option Nat
  next : Nat
  pending : Option Nat
  strRep : Nat → String
  className : Nat → String

/-- Dereferences a raw handle to the identity of the managed object it
denotes (`none` for the null handle and for freed slots). -/
def deref (e : Env) (h : JObj) : Option Nat :=
  match h with
  | none => none
  | some s => e.table s

/-- Models `JNIEnv::NewGlobalRef`: a fresh slot denoting the same managed
object; on a null or dangling input it yields the null handle. -/
def newRef (e : Env) (h : JObj) : JObj × Env :=
  match deref e h with
  | none => (none, e)
  | some oid =>
    (some e.next,
     { e with table := fun s => if s = e.next then some oid else e.table s
            , next := e.next + 1 })

/-- Models `JNIEnv::DeleteGlobalRef` / `JNIEnv::DeleteLocalRef`: frees the
slot of the given handle. -/
def deleteRef (e : Env) (h : JObj) : Env :=
  match h with
  | none => e
  | some s => { e with table := fun t => if t = s then none else e.table t }

/-- Models `JNIEnv::IsSameObject`: identity comparison of the denoted
managed objects (two null/dangling handles compare equal). -/
def isSameObject (e : Env) (a b : JObj) : Bool :=
  deref e a == deref e b

/-! ## The reference-lifetime core (class jni::Object) -/

/-- The data members of `jni::Object` (jnipp.h lines 370-372): the owned
handle `_handle`, the lazily cached class reference `_class`, and the
ownership flag `_isGlobal`. -/
structure Obj where
  handle : JObj
  cls : JObj
  isGlobal : Bool
deriving DecidableEq

namespace Obj

/-- Models the default constructor `Object::Object()` (jnipp.cpp line 232):
the null object. -/
def null : Obj := ⟨none, none, false⟩

/-- Models `Object::isNull` (jnipp.cpp lines 325-328):
`_handle == NULL || IsSameObject(_handle, NULL)`. -/
def isNull (e : Env) (o : Obj) : Bool :=
  o.handle.isNone || isSameObject e o.handle none

/-- Models the constructor `Object::Object(jobject ref, int scopeFlags)`
(jnipp.cpp lines 249-260).  `Temporary = 1` suppresses the global
reference; otherwise a global reference is taken and, with
`DeleteLocalInput = 2`, the input local reference is deleted. -/
def fromRef (e : Env) (ref : JObj) (scopeFlags : Nat) : Obj × Env :=
  if scopeFlags &&& 1 ≠ 0 then
    (⟨ref, none, false⟩, e)
  else
    let p := newRef e ref
    let e2 := if scopeFlags &&& 2 ≠ 0 then deleteRef p.2 ref else p.2
    (⟨p.1, none, true⟩, e2)

/-- Models the copy constructor `Object::Object(const Object&)` (jnipp.cpp
lines 236-240): `_isGlobal = !other.isNull()`, and for a non-null source a
fresh global reference is taken; `_class` starts out null. -/
def copyCtor (e : Env) (other : Obj) : Obj × Env :=
  if isNull e other then (⟨none, none, false⟩, e)
  else
    let p := newRef e other.handle
    (⟨p.1, none, true⟩, p.2)

/-- Models the move constructor `Object::Object(Object&&)` (jnipp.cpp lines
242-247): the new object takes all three members and the source is nulled.
The result pair is (constructed object, moved-from source). -/
def moveCtor (other : Obj) : Obj × Obj :=
  (⟨other.handle, other.cls, other.isGlobal⟩, ⟨none, none, false⟩)

/-- Models the destructor `Object::~Object` (jnipp.cpp lines 262-271):
deletes the owned global reference when `_isGlobal`, and the cached class
reference when present. -/
def dtor (e : Env) (o : Obj) : Env :=
  let e1 := if o.isGlobal then deleteRef e o.handle else e
  if o.cls ≠ none then deleteRef e1 o.cls else e1

/-- Models copy assignment `Object::operator=(const Object&)` (jnipp.cpp
lines 273-293): guarded by `_handle != other._handle`; releases the old
references, then takes a fresh global reference when the source is
non-null (otherwise the stale `_handle` value is kept with
`_isGlobal = false`), and resets `_class`. -/
def copyAssign (e : Env) (tgt src : Obj) : Obj × Env :=
  if tgt.handle = src.handle then (tgt, e)
  else
    let e1 := if tgt.isGlobal then deleteRef e tgt.handle else e
    let e2 := if tgt.cls ≠ none then deleteRef e1 tgt.cls else e1
    if isNull e2 src then (⟨tgt.handle, none, false⟩, e2)
    else
      let p := newRef e2 src.handle
      (⟨p.1, none, true⟩, p.2)

/-- Models move assignment `Object::operator=(Object&&)` (jnipp.cpp lines
300-323): guarded by `_handle != other._handle`; releases the old
references, transfers all three members from the source and nulls the
source.  The result is ((target after, source after), post-state). -/
def moveAssign (e : Env) (tgt src : Obj) : (Obj × Obj) × Env :=
  if tgt.handle = src.handle then ((tgt, src), e)
  else
    let e1 := if tgt.isGlobal then deleteRef e tgt.handle else e
    let e2 := if tgt.cls ≠ none then deleteRef e1 tgt.cls else e1
    ((⟨src.handle, src.cls, src.isGlobal⟩, ⟨none, none, false⟩), e2)

/-- Models `Object::operator==` (jnipp.cpp lines 295-298):
`IsSameObject(_handle, other._handle)`. -/
def beqObj (e : Env) (a b : Obj) : Bool :=
  isSameObject e a.handle b.handle

end Obj

/-! ## Object signature resolution (jnipp.cpp, internal::valueSig(const Object*)) -/

/-- Models `internal::valueSig(const Object* obj)` of jnipp.cpp lines
1125-1138.  A null pointer or null Object yields the generic descriptor;
otherwise the object's runtime class name (`Class(obj->getClass(),
Temporary).getName()`, modelled by `Env.className` at the denoted object's
identity) has every '.' replaced by '/' and is wrapped as `L<name>;`. -/
def valueSigObject (e : Env) (obj : Option Obj) : String :=
  match obj with
  | none => "Ljava/lang/Object;"
  | some o =>
    if Obj.isNull e o then "Ljava/lang/Object;"
    else
      match deref e o.handle with
      | none => "Ljava/lang/Object;"
      | some oid =>
        "L" ++ String.map (fun c => if c = '.' then '/' else c) (e.className oid) ++ ";"

/-- Models `internal::valueSig(const Object* const* obj)` of jnipp.h line
81: `valueSig(obj ? *obj : nullptr)`. -/
def valueSigObjectPtr (e : Env) (p : Option (Option Obj)) : String :=
  valueSigObject e (p.getD none)

/-! ## The exception bridge (jnipp.cpp, handleJavaExceptions) -/

/-- The wrapper's error taxonomy (jnipp.h lines 744-778), plus two markers
for misuse of the JNI bridge itself: `pendingViolation` for a bridge call
issued while an exception is pending (which JNI forbids), and `invalidRef`
for invoking a method on a null or dangling handle. -/
inductive JniError where
  | initialization (msg : String)
  | nameResolution (msg : String)
  | invocation (msg : String)
  | pendingViolation
  | invalidRef
deriving DecidableEq

/-- Models the outcome of the Java method underlying a bridge call: it
either returns a value or throws the managed object with the given
identity. -/
inductive MethodResult where
  | returns (v : Int)
  | throws (exOid : Nat)
deriving DecidableEq

/-- Models `JNIEnv::ExceptionOccurred`: when an exception is pending, a
fresh local reference to the thrown object is returned. -/
def exceptionOccurred (e : Env) : JObj × Env :=
  match e.pending with
  | none => (none, e)
  | some oid =>
    (some e.next,
     { e with table := fun s => if s = e.next then some oid else e.table s
            , next := e.next + 1 })

/-- Models `obj.call<std::string>("toString")` as issued by
`handleJavaExceptions` on the thrown object: the bridge call is illegal
while an exception is pending; `Throwable::toString` itself returns
normally, with the receiver's string representation given by
`Env.strRep`. -/
def callToString (e : Env) (h : JObj) : Except JniError String × Env :=
  if e.pending.isSome then (.error .pendingViolation, e)
  else
    match deref e h with
    | none => (.error .invalidRef, e)
    | some oid => (.ok (e.strRep oid), e)

/-- Models `handleJavaExceptions` of jnipp.cpp lines 154-168: query the
pending exception; if set, wrap it in a `Temporary` Object, clear the
pending flag, obtain the thrown object's string representation, and raise
`InvocationException` carrying it. -/
def handleJavaExceptions (e : Env) : Except JniError Unit × Env :=
  let q := exceptionOccurred e
  match q.1 with
  | none => (.ok (), q.2)
  | some s =>
    let p := Obj.fromRef q.2 (some s) 1
    let e3 := { p.2 with pending := none }
    match callToString e3 p.1.handle with
    | (.ok msg, e4) => (.error (.invocation msg), e4)
    | (.error err, e4) => (.error err, e4)

/-- Models the raw JNI primitive `CallIntMethodA` (representative of the
per-type call family): illegal while an exception is pending; otherwise the
invoked method either returns its value or sets the pending-exception flag
(in which case the primitive's return value is unspecified, modelled as 0).
The receiver, method id and argument slots are summarized by the method's
behaviour `m`. -/
def jniCallIntMethodA (e : Env) (m : MethodResult) : Except JniError Int × Env :=
  if e.pending.isSome then (.error .pendingViolation, e)
  else
    match m with
    | .returns v => (.ok v, e)
    | .throws oid => (.ok 0, { e with pending := some oid })

/-- Models the wrapper `Object::callMethod<int>` of jnipp.cpp lines 367-372:
`auto result = env()->CallIntMethodA(...); handleJavaExceptions();
return result;`. -/
def callMethodInt (e : Env) (m : MethodResult) : Except JniError Int × Env :=
  match jniCallIntMethodA e m with
  | (.error err, e1) => (.error err, e1)
  | (.ok v, e1) =>
    match handleJavaExceptions e1 with
    | (.ok _, e2) => (.ok v, e2)
    | (.error err, e2) => (.error err, e2)

/-! ## Argument marshalling cleanup (jnipp.h internal::cleanupArg / ArgArray,
jnipp.cpp internal::valueArg and cleanupArg specializations) -/

/-- Tags for the argument types accepted by the `internal::valueArg`
overload set (jnipp.h lines 99-112). -/
inductive ArgType where
  | boolA | wcharA | shortA | intA | longA | floatA | doubleA
  | jobjectA | objectA | objectPtrA
  | stringA | cstrA | wstringA | wcstrA
deriving DecidableEq

/-- Number of transient local managed-string handles allocated by the
`internal::valueArg` overload for the given argument type (jnipp.cpp lines
1110-1188): the four string overloads each create one Java string
(`NewStringUTF` / `NewString`); every other overload stores the value (or
an existing handle) directly into the slot. -/
def valueArgLocalRefs : ArgType → Nat
  | .stringA | .cstrA | .wstringA | .wcstrA => 1
  | _ => 0

/-- Number of `DeleteLocalRef` calls performed, for a slot of the given
argument type, by the `internal::cleanupArg<T>` specialization that
jnipp.cpp actually defines for that type.  jnipp.cpp defines deleting
specializations for `std::string` (line 1149), `const char*` (line 1160)
and `const wchar_t*` (line 1196).  For `std::wstring`, jnipp.h line 124
declares the specialization `cleanupArg<std::wstring>`, but jnipp.cpp
line 1191 defines `cleanupArg<const std::wstring*>` instead — a type that
`ArgArray`/`cleanupArgs` never instantiates — so no deletion is defined
for a `std::wstring` argument slot (the declared specialization has no
definition anywhere).  All remaining types use the primary template of
jnipp.h line 122, which is a no-op. -/
def cleanupArgDeletes : ArgType → Nat
  | .stringA | .cstrA | .wcstrA => 1
  | _ => 0

/-- Total local-handle allocations over an argument list, mirroring the
left-to-right recursion of `internal::args` (jnipp.h lines 114-120). -/
def argArrayLocalRefs : List ArgType → Nat
  | [] => 0
  | t :: ts => valueArgLocalRefs t + argArrayLocalRefs ts

/-- Total `DeleteLocalRef` calls performed by `~ArgArray` via the
slot-by-slot recursion of `internal::cleanupArgs` (jnipp.h lines 128-135),
which invokes `cleanupArg<TArg>` exactly once per slot. -/
def cleanupArgsDeletes : List ArgType → Nat
  | [] => 0
  | t :: ts => cleanupArgDeletes t + cleanupArgsDeletes ts

/-! ## VM lifecycle (jnipp.cpp, Vm::Vm / Vm::~Vm / jni::init) -/

/-- The process-wide static state of jnipp.cpp lines 24-25: the atomic
"VM is live" flag `isVm` and whether the `javaVm` pointer is set. -/
structure ProcState where
  isVm : Bool
  javaVm : Bool
deriving DecidableEq

/-- Models `Vm::Vm(const char* path_)` of jnipp.cpp lines 1019-1088.
`pathArg` is the constructor argument (`none` for auto-detection),
`detectedPath` the result of `detectJvmPath()`, and `loadOk` / `createOk`
summarize loading the JVM library (including the Windows client/server
retry) and resolving+invoking `JNI_CreateJavaVM`.  The result pairs the
thrown error (if any) with the post-state of the process-wide flags; on
the library/creation failures the source rolls `isVm` back to false. -/
def vmCtor (s : ProcState) (pathArg : Option String) (detectedPath : String)
    (loadOk createOk : Bool) : Except JniError Unit × ProcState :=
  let path := pathArg.getD detectedPath
  if path.length = 0 then
    (.error (.initialization "Could not locate Java Virtual Machine"), s)
  else if s.isVm then
    (.error (.initialization "Java Virtual Machine already initialized"), s)
  else if s.javaVm then (.ok (), { s with isVm := true })
  else if loadOk = false then
    (.error (.initialization "Could not load JVM library"), { s with isVm := false })
  else if createOk = false then
    (.error (.initialization "Java Virtual Machine failed during creation"),
     { s with isVm := false })
  else (.ok (), { isVm := true, javaVm := true })

/-- Models `jni::init(JNIEnv*)` of jnipp.cpp lines 217-226: a successful
compare-and-swap on `isVm` captures the `JavaVM` via `GetJavaVM`
(summarized by `getJavaVmOk`); a failed swap is a no-op.  Note that the
error path does not roll `isVm` back. -/
def jniInit (s : ProcState) (getJavaVmOk : Bool) : Except JniError Unit × ProcState :=
  if s.isVm = false then
    if s.javaVm = false ∧ getJavaVmOk = false then
      (.error (.initialization "Could not acquire Java VM"), { s with isVm := true })
    else (.ok (), { isVm := true, javaVm := true })
  else (.ok (), s)

/-- Models `Vm::~Vm` of jnipp.cpp lines 1090-1098: the JVM is never really
destroyed; the live flag is simply released. -/
def vmDtor (s : ProcState) : ProcState :=
  { s with isVm := false }

/-! ## Per-thread environment (jnipp.cpp, class ScopedEnv) -/

/-- The data members of `ScopedEnv` (jnipp.cpp lines 39-43), with the
pointers `_vm` and `_env` modelled by their non-nullness. -/
structure ScopedEnvS where
  vm : Bool
  env : Bool
  attached : Bool
deriving DecidableEq

namespace ScopedEnvS

/-- Models the `ScopedEnv` default constructor (jnipp.cpp line 33), the
state of the thread-local cache before its first use. -/
def fresh : ScopedEnvS := ⟨false, false, false⟩

/-- Models `ScopedEnv::init(JavaVM* vm)` of jnipp.cpp lines 52-73.
`vmGiven` is whether the passed `vm` is non-null, `alreadyAttached`
whether `GetEnv` succeeds (the thread is already attached to the VM), and
`attachOk` whether `AttachCurrentThread` would succeed.  Only the
self-performed attach sets `_attached`. -/
def init (s : ScopedEnvS) (vmGiven alreadyAttached attachOk : Bool) :
    Except JniError ScopedEnvS :=
  if s.env then .ok s
  else if vmGiven = false then .error (.initialization "JNI not initialized")
  else if alreadyAttached then .ok { vm := true, env := true, attached := s.attached }
  else if attachOk = false then .error (.initialization "Could not attach JNI to thread")
  else .ok { vm := true, env := true, attached := true }

/-- Models the teardown condition of `ScopedEnv::~ScopedEnv` (jnipp.cpp
lines 46-50): `DetachCurrentThread` is called iff `_vm && _attached`. -/
def dtorDetaches (s : ScopedEnvS) : Bool :=
  s.vm && s.attached

end ScopedEnvS

/-! ## Concrete inputs used by the witness theorems -/

/-- A concrete bridge state: one live reference slot 0 denoting object 7,
no pending exception. -/
def envW : Env :=
  { table := fun s => if s = 0 then some 7 else none
  , next := 1
  , pending := none
  , strRep := fun _ => "java.lang.RuntimeException: boom"
  , className := fun _ => "java.lang.String" }

/-- A concrete non-null Object owning the global reference in slot 0 of
`envW`. -/
def objW : Obj := ⟨some 0, none, true⟩

/-- A concrete bridge state with a pending exception (object 9). -/
def envPendingW : Env :=
  { envW with pending := some 9 }

/-! ## Helper lemmas -/

/-- `Object::isNull` holds exactly when the owned handle denotes no managed
object (it is the null pointer or its slot has been freed). -/
theorem isNull_eq_isNone (e : Env) (o : Obj) :
    Obj.isNull e o = (deref e o.handle).isNone := by
  cases h : o.handle with
  | none => simp [Obj.isNull, deref, h]
  | some s =>
    simp only [Obj.isNull, isSameObject, deref, h, Option.isNone_none,
      Bool.false_or]
    cases e.table s <;> rfl

/-- Dereferencing an untouched slot is unaffected by deleting another. -/
theorem deref_deleteRef_ne (e : Env) (s t : Nat) (h : t ≠ s) :
    deref (deleteRef e (some s)) (some t) = deref e (some t) := by
  simp [deleteRef, deref, h]

/-- Dereferencing a slot not owned by a destroyed Object is unaffected by
that Object's destructor. -/
theorem deref_dtor_ne (e : Env) (o : Obj) (t : Nat)
    (hh : ∀ u, o.handle = some u → u ≠ t)
    (hc : ∀ u, o.cls = some u → u ≠ t) :
    deref (Obj.dtor e o) (some t) = deref e (some t) := by
  unfold Obj.dtor
  have step : ∀ e1 : Env, deref (if o.cls ≠ none then deleteRef e1 o.cls else e1)
      (some t) = deref e1 (some t) := by
    intro e1
    cases hcv : o.cls with
    | none => simp
    | some u => simpa using deref_deleteRef_ne e1 u t (fun he => (hc u hcv) he.symm)
  rw [step]
  cases hg : o.isGlobal with
  | false => simp
  | true =>
    cases hhv : o.handle with
    | none => simp [deleteRef]
    | some u => simpa using deref_deleteRef_ne e u t (fun he => (hh u hhv) he.symm)

/-- Constructing an Object with the `Temporary` flag borrows the handle and
leaves the bridge state untouched (jnipp.cpp lines 249-252). -/
theorem fromRef_temporary (e : Env) (r : JObj) :
    Obj.fromRef e r 1 = (⟨r, none, false⟩, e) := by
  simp [Obj.fromRef]

/-! ## Claim theorems -/

/-- C4: the signature synthesizer returns exactly the documented descriptor
literal for every supported primitive and string type (void → "V",
bool → "Z", wchar_t → "C", short → "S", int → "I", long long → "J",
float → "F", double → "D", and every string kind → "Ljava/lang/String;"),
and the method descriptor composed for an int-returning call with
arguments (string, int) is exactly "(Ljava/lang/String;I)I". -/
theorem signature_literals_and_composition :
    valueSig .voidT = "V" ∧ valueSig .boolT = "Z" ∧ valueSig .wcharT = "C" ∧
    valueSig .shortT = "S" ∧ valueSig .intT = "I" ∧ valueSig .longT = "J" ∧
    valueSig .floatT = "F" ∧ valueSig .doubleT = "D" ∧
    valueSig .stringT = "Ljava/lang/String;" ∧
    valueSig .wstringT = "Ljava/lang/String;" ∧
    valueSig .cstrT = "Ljava/lang/String;" ∧
    valueSig .wcstrT = "Ljava/lang/String;" ∧
    methodSig [.stringT, .intT] .intT = "(Ljava/lang/String;I)I" := by
  refine ⟨rfl, rfl, rfl, rfl, rfl, rfl, rfl, rfl, rfl, rfl, rfl, rfl, ?_⟩
  rfl

/-- C6 (counter-evidence, code bug): the encoder turns U+10000 into the
valid surrogate pair [0xD800, 0xDC00], but the decoder maps that pair to
the single value -0x10400 instead of 0x10000 — `toWString` re-reads the
high surrogate (`str[i++]` still indexes the high unit) and subtracts
0x1DC00 without restoring the 0x10000 offset — so the round trip claimed
lossless by the spec fails; the truncation clause (a trailing unpaired
high surrogate stops the conversion) does hold. -/
theorem surrogate_roundtrip_bug :
    toJString [65536] = [55296, 56320] ∧
    toWString (toJString [65536]) = [-66560] ∧
    toWString [55296] = [] := by
  refine ⟨?_, ?_, ?_⟩ <;> decide

/-- C9 (counter-evidence, code bug): the `valueArg` conversion for every
string-typed argument allocates exactly one transient local string handle
and numeric/boolean/char slots allocate none, and the `cleanupArg`
specializations that jnipp.cpp defines delete that handle exactly once for
`std::string`, `const char*` and `const wchar_t*` — but for `std::wstring`
no deletion is defined (jnipp.cpp line 1191 specializes
`cleanupArg<const std::wstring*>`, a type never instantiated, instead of
the `cleanupArg<std::wstring>` declared in jnipp.h line 124), so a
`std::wstring` argument's transient handle is not deleted, contradicting
the claim. -/
theorem wstring_cleanup_missing :
    valueArgLocalRefs .wstringA = 1 ∧ cleanupArgDeletes .wstringA = 0 ∧
    argArrayLocalRefs [.wstringA] = 1 ∧ cleanupArgsDeletes [.wstringA] = 0 ∧
    valueArgLocalRefs .stringA = 1 ∧ cleanupArgDeletes .stringA = 1 ∧
    valueArgLocalRefs .cstrA = 1 ∧ cleanupArgDeletes .cstrA = 1 ∧
    valueArgLocalRefs .wcstrA = 1 ∧ cleanupArgDeletes .wcstrA = 1 ∧
    valueArgLocalRefs .boolA = 0 ∧ cleanupArgDeletes .boolA = 0 ∧
    valueArgLocalRefs .wcharA = 0 ∧ cleanupArgDeletes .wcharA = 0 ∧
    valueArgLocalRefs .shortA = 0 ∧ cleanupArgDeletes .shortA = 0 ∧
    valueArgLocalRefs .intA = 0 ∧ cleanupArgDeletes .intA = 0 ∧
    valueArgLocalRefs .longA = 0 ∧ cleanupArgDeletes .longA = 0 ∧
    valueArgLocalRefs .floatA = 0 ∧ cleanupArgDeletes .floatA = 0 ∧
    valueArgLocalRefs .doubleA = 0 ∧ cleanupArgDeletes .doubleA = 0 := by
  decide

/-- C2: moving an Object (by move construction, or by move assignment into
a fresh Object) nullifies the source — `a.isNull()` afterwards — while the
destination takes over exactly the members the source held (same handle
slot, so it denotes the same managed object) and the bridge state is
untouched (no new reference is created: ownership is transferred, not
duplicated). -/
theorem move_nullifies_source (e : Env) (a : Obj) :
    (Obj.moveCtor a).1.handle = a.handle ∧
    (Obj.moveCtor a).1.cls = a.cls ∧
    (Obj.moveCtor a).1.isGlobal = a.isGlobal ∧
    Obj.isNull e (Obj.moveCtor a).2 = true ∧
    (Obj.moveAssign e Obj.null a).2 = e ∧
    Obj.isNull e (Obj.moveAssign e Obj.null a).1.2 = true ∧
    (Obj.moveAssign e Obj.null a).1.1.handle = a.handle := by
  refine ⟨rfl, rfl, rfl, rfl, ?_, ?_, ?_⟩ <;>
    cases ha : a.handle <;>
      simp [Obj.moveAssign, Obj.null, Obj.isNull, isSameObject, deref, ha]

/-- C10: copy assignment and move assignment are self-assignment-safe:
whenever the source's raw handle equals the target's (in particular for
`a = a` and `a = std::move(a)`), both operands and the bridge state are
left completely unchanged — no reference is released or created. -/
theorem self_assignment_noop (e : Env) (a b : Obj) (h : a.handle = b.handle) :
    Obj.copyAssign e a b = (a, e) ∧
    Obj.moveAssign e a b = ((a, b), e) ∧
    Obj.copyAssign e a a = (a, e) ∧
    Obj.moveAssign e a a = ((a, a), e) := by
  simp [Obj.copyAssign, Obj.moveAssign, h]

/-- Witness for C10 at a concrete state and object. -/
theorem self_assignment_noop_witness :
    Obj.copyAssign envW objW objW = (objW, envW) ∧
    Obj.moveAssign envW objW objW = ((objW, objW), envW) ∧
    Obj.copyAssign envW objW objW = (objW, envW) ∧
    Obj.moveAssign envW objW objW = ((objW, objW), envW) :=
  self_assignment_noop envW objW objW rfl

/-- With an exception pending, `handleJavaExceptions` clears the pending
flag (before issuing the `toString` bridge call, which therefore succeeds)
and raises an invocation error carrying the thrown object's string
representation; the only other state change is the local reference created
by `ExceptionOccurred`. -/
theorem handleJavaExceptions_pending (e : Env) (ex : Nat)
    (h : e.pending = some ex) :
    handleJavaExceptions e =
      (.error (.invocation (e.strRep ex)),
       { e with table := fun s => if s = e.next then some ex else e.table s
              , next := e.next + 1
              , pending := none }) := by
  unfold handleJavaExceptions exceptionOccurred
  rw [h]
  simp [fromRef_temporary, callToString, deref]

/-- With no exception pending, `handleJavaExceptions` is a no-op. -/
theorem handleJavaExceptions_none (e : Env) (h : e.pending = none) :
    handleJavaExceptions e = (.ok (), e) := by
  unfold handleJavaExceptions exceptionOccurred
  rw [h]

/-- A non-throwing bridge call made with no exception pending succeeds and
leaves the state unchanged. -/
theorem callMethodInt_returns (e : Env) (v : Int) (h : e.pending = none) :
    callMethodInt e (.returns v) = (.ok v, e) := by
  simp [callMethodInt, jniCallIntMethodA, h, handleJavaExceptions_none e h]

/-- C1: a bridge call whose Java method throws leaves a pending exception,
which the wrapper clears before raising an `InvocationException` carrying
the thrown object's string representation; the resulting state has no
pending exception, so a subsequent non-throwing call succeeds.  The last
two conjuncts state the same for `handleJavaExceptions` directly on any
state with a pending exception. -/
theorem exception_bridge_clears_and_raises (e e2 : Env) (ex ex2 : Nat) (v : Int)
    (hp : e.pending = none) (h2 : e2.pending = some ex2) :
    (callMethodInt e (.throws ex)).1 = .error (.invocation (e.strRep ex)) ∧
    (callMethodInt e (.throws ex)).2.pending = none ∧
    (callMethodInt (callMethodInt e (.throws ex)).2 (.returns v)).1 = .ok v ∧
    (handleJavaExceptions e2).1 = .error (.invocation (e2.strRep ex2)) ∧
    (handleJavaExceptions e2).2.pending = none := by
  have h1 : callMethodInt e (.throws ex) =
      (.error (.invocation (e.strRep ex)),
       { e with table := fun s => if s = e.next then some ex else e.table s
              , next := e.next + 1
              , pending := none }) := by
    have hj : jniCallIntMethodA e (.throws ex) =
        (.ok 0, { e with pending := some ex }) := by
      simp [jniCallIntMethodA, hp]
    have hh := handleJavaExceptions_pending { e with pending := some ex } ex rfl
    simp [callMethodInt, hj, hh]
  refine ⟨by rw [h1], by rw [h1], ?_, ?_, ?_⟩
  · rw [h1, callMethodInt_returns _ v rfl]
  · rw [handleJavaExceptions_pending e2 ex2 h2]
  · rw [handleJavaExceptions_pending e2 ex2 h2]

/-- Witness for C1 at concrete states: `envW` has no pending exception and
`envPendingW` has object 9 pending. -/
theorem exception_bridge_clears_and_raises_witness :
    (callMethodInt envW (.throws 5)).1 = .error (.invocation (envW.strRep 5)) ∧
    (callMethodInt envW (.throws 5)).2.pending = none ∧
    (callMethodInt (callMethodInt envW (.throws 5)).2 (.returns 11)).1 = .ok 11 ∧
    (handleJavaExceptions envPendingW).1 =
      .error (.invocation (envPendingW.strRep 9)) ∧
    (handleJavaExceptions envPendingW).2.pending = none :=
  exception_bridge_clears_and_raises envW envPendingW 5 9 11 rfl rfl

/-- C3: copying a non-null Object yields an Object that denotes the same
managed instance (`operator==` holds) but owns a distinct, freshly created
global reference slot; destroying the copy leaves the original's reference
intact and usable, and destroying the original leaves the copy intact —
no aliasing of a slot, no double release.  Copy assignment into a fresh
Object behaves exactly like the copy constructor.  The hypotheses are the
reachable-state invariants that the source's handle denotes object `oid`,
that slots at or beyond `next` are unallocated, and that a cached class
reference (if any) lives in an allocated slot. -/
theorem copy_independence (e : Env) (a : Obj) (oid : Nat)
    (ha : deref e a.handle = some oid)
    (hfresh : ∀ t, e.next ≤ t → e.table t = none)
    (hcls : ∀ t, a.cls = some t → t < e.next) :
    Obj.beqObj (Obj.copyCtor e a).2 a (Obj.copyCtor e a).1 = true ∧
    (Obj.copyCtor e a).1.handle ≠ a.handle ∧
    deref (Obj.dtor (Obj.copyCtor e a).2 (Obj.copyCtor e a).1) a.handle = some oid ∧
    Obj.isNull (Obj.dtor (Obj.copyCtor e a).2 (Obj.copyCtor e a).1) a = false ∧
    deref (Obj.dtor (Obj.copyCtor e a).2 a) (Obj.copyCtor e a).1.handle = some oid ∧
    Obj.isNull (Obj.dtor (Obj.copyCtor e a).2 a) (Obj.copyCtor e a).1 = false ∧
    Obj.copyAssign e Obj.null a = Obj.copyCtor e a := by
  obtain ⟨s, hs⟩ : ∃ s, a.handle = some s := by
    cases h : a.handle with
    | none => rw [h] at ha; simp [deref] at ha
    | some s => exact ⟨s, rfl⟩
  have hts : e.table s = some oid := by rw [hs] at ha; simpa [deref] using ha
  have hsn : s < e.next := by
    by_contra hlt
    rw [hfresh s (le_of_not_lt hlt)] at hts
    cases hts
  have hne : s ≠ e.next := Nat.ne_of_lt hsn
  have hnotnull : Obj.isNull e a = false := by
    rw [isNull_eq_isNone, ha]; rfl
  have hctor : Obj.copyCtor e a =
      (⟨some e.next, none, true⟩,
       { e with table := fun t => if t = e.next then some oid else e.table t
              , next := e.next + 1 }) := by
    simp [Obj.copyCtor, hnotnull, newRef, hs, deref, hts]
  have hd1 : deref (Obj.copyCtor e a).2 a.handle = some oid := by
    rw [hctor, hs]; simp [deref, hne]; exact hts
  have hd2 : deref (Obj.copyCtor e a).2 (some e.next) = some oid := by
    rw [hctor]; simp [deref]
  refine ⟨?_, ?_, ?_, ?_, ?_, ?_, ?_⟩
  · rw [Obj.beqObj, isSameObject, hd1]
    rw [show (Obj.copyCtor e a).1.handle = some e.next from by rw [hctor]]
    rw [hd2]; simp
  · rw [hctor, hs]
    simp
    omega
  · rw [show (Obj.copyCtor e a).1 = ⟨some e.next, none, true⟩ from by rw [hctor]]
    rw [hs, deref_dtor_ne]
    · rw [← hs, hd1]
    · intro u hu he
      cases hu
      exact hne he.symm
    · intro u hu
      cases hu
  · rw [isNull_eq_isNone]
    rw [show (Obj.copyCtor e a).1 = ⟨some e.next, none, true⟩ from by rw [hctor]]
    rw [hs, deref_dtor_ne]
    · rw [← hs, hd1]; rfl
    · intro u hu he
      cases hu
      exact hne he.symm
    · intro u hu
      cases hu
  · rw [show (Obj.copyCtor e a).1.handle = some e.next from by rw [hctor]]
    rw [deref_dtor_ne]
    · exact hd2
    · intro u hu he
      rw [hs] at hu
      cases hu
      exact hne (he ▸ rfl)
    · intro u hu he
      exact Nat.ne_of_lt (hcls u hu) he
  · rw [isNull_eq_isNone]
    rw [show (Obj.copyCtor e a).1 = ⟨some e.next, none, true⟩ from by rw [hctor]]
    rw [show (⟨some e.next, none, true⟩ : Obj).handle = some e.next from rfl]
    rw [deref_dtor_ne]
    · rw [hd2]; rfl
    · intro u hu he
      rw [hs] at hu
      cases hu
      exact hne (he ▸ rfl)
    · intro u hu he
      exact Nat.ne_of_lt (hcls u hu) he
  · rw [hctor]
    simp [Obj.copyAssign, Obj.null, hs, hnotnull, newRef, deref, hts]

/-- Witness for C3 at a concrete state: `objW` owns slot 0 denoting
object 7 in `envW`. -/
theorem copy_independence_witness :
    Obj.beqObj (Obj.copyCtor envW objW).2 objW (Obj.copyCtor envW objW).1 = true ∧
    (Obj.copyCtor envW objW).1.handle ≠ objW.handle ∧
    deref (Obj.dtor (Obj.copyCtor envW objW).2 (Obj.copyCtor envW objW).1)
      objW.handle = some 7 ∧
    Obj.isNull (Obj.dtor (Obj.copyCtor envW objW).2 (Obj.copyCtor envW objW).1)
      objW = false ∧
    deref (Obj.dtor (Obj.copyCtor envW objW).2 objW)
      (Obj.copyCtor envW objW).1.handle = some 7 ∧
    Obj.isNull (Obj.dtor (Obj.copyCtor envW objW).2 objW)
      (Obj.copyCtor envW objW).1 = false ∧
    Obj.copyAssign envW Obj.null objW = Obj.copyCtor envW objW :=
  copy_independence envW objW 7 rfl
    (fun t ht => by
      have h0 : t ≠ 0 := by simp [envW] at ht; omega
      simp [envW, h0])
    (fun t ht => by simp [objW] at ht)

/-- C5: the Object signature synthesizer returns the generic descriptor
"Ljava/lang/Object;" for a null pointer, a pointer to a null pointer, and
a null Object, and for a non-null Object it resolves the runtime class
name of the denoted object, replaces every '.' by '/', and wraps it as
`L<name>;` — likewise through the pointer-to-pointer overload. -/
theorem object_signature_resolution (e : Env) (o onull : Obj) (oid : Nat)
    (h1 : deref e o.handle = some oid)
    (h2 : Obj.isNull e onull = true) :
    valueSigObject e none = "Ljava/lang/Object;" ∧
    valueSigObjectPtr e none = "Ljava/lang/Object;" ∧
    valueSigObjectPtr e (some none) = "Ljava/lang/Object;" ∧
    valueSigObject e (some onull) = "Ljava/lang/Object;" ∧
    valueSigObject e (some o) =
      "L" ++ String.map (fun c => if c = '.' then '/' else c) (e.className oid) ++ ";" ∧
    valueSigObjectPtr e (some (some o)) =
      "L" ++ String.map (fun c => if c = '.' then '/' else c) (e.className oid) ++ ";" := by
  have hn : Obj.isNull e o = false := by
    rw [isNull_eq_isNone, h1]; rfl
  refine ⟨rfl, rfl, rfl, ?_, ?_, ?_⟩
  · simp [valueSigObject, h2]
  · simp [valueSigObject, hn, h1]
  · simp [valueSigObjectPtr, valueSigObject, hn, h1]

/-- Witness for C5 at a concrete state: `objW` denotes object 7, whose
runtime class is named "java.lang.String" in `envW`. -/
theorem object_signature_resolution_witness :
    valueSigObject envW none = "Ljava/lang/Object;" ∧
    valueSigObjectPtr envW none = "Ljava/lang/Object;" ∧
    valueSigObjectPtr envW (some none) = "Ljava/lang/Object;" ∧
    valueSigObject envW (some Obj.null) = "Ljava/lang/Object;" ∧
    valueSigObject envW (some objW) =
      "L" ++ String.map (fun c => if c = '.' then '/' else c)
        (envW.className 7) ++ ";" ∧
    valueSigObjectPtr envW (some (some objW)) =
      "L" ++ String.map (fun c => if c = '.' then '/' else c)
        (envW.className 7) ++ ";" :=
  object_signature_resolution envW objW Obj.null 7 rfl rfl

/-- C7: constructing a `Vm` while the process-wide VM flag is already set
always fails with an initialization error (never silently succeeds) and
leaves the process state unchanged; and `jni::init` always leaves the flag
set, so a construction attempted after it fails the same way. -/
theorem second_vm_construction_fails (s : ProcState) (p : Option String)
    (d : String) (lo co g : Bool) (hlive : s.isVm = true) :
    ((vmCtor s p d lo co).1 =
        .error (.initialization "Could not locate Java Virtual Machine") ∨
     (vmCtor s p d lo co).1 =
        .error (.initialization "Java Virtual Machine already initialized")) ∧
    (vmCtor s p d lo co).2 = s ∧
    (jniInit s g).2.isVm = true := by
  unfold vmCtor jniInit
  by_cases hp : (p.getD d).length = 0 <;> simp [hp, hlive]

/-- Witness for C7 at a concrete live state. -/
theorem second_vm_construction_fails_witness :
    ((vmCtor ⟨true, true⟩ none "jvm" true true).1 =
        .error (.initialization "Could not locate Java Virtual Machine") ∨
     (vmCtor ⟨true, true⟩ none "jvm" true true).1 =
        .error (.initialization "Java Virtual Machine already initialized")) ∧
    (vmCtor ⟨true, true⟩ none "jvm" true true).2 = ⟨true, true⟩ ∧
    (jniInit ⟨true, true⟩ true).2.isVm = true :=
  second_vm_construction_fails ⟨true, true⟩ none "jvm" true true true rfl

/-- C8: after a successful lazy initialization of the thread-local
environment, the teardown detaches the thread exactly when the wrapper
itself performed the attach — i.e. when `GetEnv` reported the thread not
yet attached — and a thread that arrived already attached is never
detached. -/
theorem detach_only_if_self_attached (alreadyAttached attachOk : Bool)
    (s : ScopedEnvS)
    (h : ScopedEnvS.init ScopedEnvS.fresh true alreadyAttached attachOk = .ok s) :
    ScopedEnvS.dtorDetaches s = !alreadyAttached ∧
    s.attached = !alreadyAttached := by
  cases alreadyAttached <;> cases attachOk <;>
    simp [ScopedEnvS.init, ScopedEnvS.fresh] at h <;>
    simp [← h, ScopedEnvS.dtorDetaches]

/-- Witness for C8: a thread that arrived already attached yields the
state (vm set, env set, not self-attached), which is not detached. -/
theorem detach_only_if_self_attached_witness :
    ScopedEnvS.dtorDetaches ⟨true, true, false⟩ = !true ∧
    (ScopedEnvS.mk true true false).attached = !true :=
  detach_only_if_self_attached true true ⟨true, true, false⟩ rfl

end Jnipp
